import Mathlib

/-!
Verification of the `tick` TickTick CLI (Rust sources in `src/`).

The development shallowly embeds the parts of the program the claims are
about:

* the date handling of `client.rs::is_task_due_today` and
  `display.rs::format_time` (the `dtparse::parse` / `chrono::Local`
  environment is modelled by an explicit `DateEnv` record);
* the task aggregation of `client.rs::get_todays_tasks` (network fetches
  are modelled as explicit `Except`-valued inputs, `println!` logging of
  per-project failures as an explicit list of printed lines);
* the OAuth callback listener of `auth.rs::start_callback_server` (the
  warp handler guarded by the `Arc<Mutex<Option<oneshot::Sender>>>` is a
  step function on an explicit listener state, and requests are processed
  in their arrival order, which is the serialisation the mutex enforces);
* the token exchange of `client.rs::exchange_code_for_token` (the `&mut`
  updates to the client and the config are made explicit by returning the
  final states together with the `Result`);
* the authorization-URL construction of
  `client.rs::get_authorization_url`, modelled at the UTF-8 byte level
  because the `url` crate's form-urlencoded serialisation is byte-wise.
-/

namespace Tick

/-! ### Naive dates and datetimes (model of `chrono::NaiveDate(Time)`) -/

/-- A calendar date, as `chrono::NaiveDate`. -/
structure NaiveDate where
  year : Int
  month : Nat
  day : Nat
deriving Repr, DecidableEq

/-- A wall-clock datetime with minute precision, as the part of
`chrono::NaiveDateTime` that the program observes (`date_naive`, plus the
hour and minute used by the `%I:%M %p` format strings). -/
structure NaiveDateTime where
  date : NaiveDate
  hour : Nat
  minute : Nat
deriving Repr, DecidableEq

/-- Proleptic-Gregorian leap year, as `chrono` implements it. -/
def isLeapYear (y : Int) : Bool :=
  (y % 4 == 0 && y % 100 != 0) || (y % 400 == 0)

/-- Number of days in a month, as `chrono` implements it. -/
def daysInMonth (y : Int) (m : Nat) : Nat :=
  if m = 2 then (if isLeapYear y then 29 else 28)
  else if m = 4 ∨ m = 6 ∨ m = 9 ∨ m = 11 then 30
  else 31

/-- Calendar successor of a date: the model of
`date + chrono::Days::new(1)` used by `display.rs` for "Tomorrow". -/
def nextDay (d : NaiveDate) : NaiveDate :=
  if d.day < daysInMonth d.year d.month then { d with day := d.day + 1 }
  else if d.month < 12 then { d with month := d.month + 1, day := 1 }
  else { year := d.year + 1, month := 1, day := 1 }

/-- Month abbreviation used by chrono's `%b` format directive. -/
def monthAbbrev : Nat → String
  | 1 => "Jan"
  | 2 => "Feb"
  | 3 => "Mar"
  | 4 => "Apr"
  | 5 => "May"
  | 6 => "Jun"
  | 7 => "Jul"
  | 8 => "Aug"
  | 9 => "Sep"
  | 10 => "Oct"
  | 11 => "Nov"
  | 12 => "Dec"
  | _ => "???"

/-- Zero padding to two digits, as chrono's `%M`, `%d` and `%I`. -/
def pad2 (n : Nat) : String :=
  if n < 10 then "0" ++ toString n else toString n

/-- The `%I:%M %p` chrono format string: zero-padded 12-hour clock with
an AM/PM marker. -/
def fmtHM (t : NaiveDateTime) : String :=
  let h12 := if t.hour % 12 = 0 then 12 else t.hour % 12
  pad2 h12 ++ ":" ++ pad2 t.minute ++ " " ++ (if t.hour < 12 then "AM" else "PM")

/-- The `%b %d %I:%M %p` chrono format string. -/
def fmtMDHM (t : NaiveDateTime) : String :=
  monthAbbrev t.date.month ++ " " ++ pad2 t.date.day ++ " " ++ fmtHM t

/-- Environment the date-handling code runs in.

* `parse` models `dtparse::parse`: on success it yields a naive
  datetime together with the optional UTC offset the string carried
  (the program always discards the offset, binding it to `_`).
* `singleLocal` models whether
  `chrono::Local.from_local_datetime(dt).single()` is `Some`: whether the
  local timezone maps this wall-clock datetime to a unique instant.  When
  it is `Some`, the resulting `DateTime<Local>` has exactly the given
  wall clock, so the resolved value is the input datetime itself.
* `now` models `chrono::Local::now()`, one snapshot per call. -/
structure DateEnv where
  parse : String → Option (NaiveDateTime × Option Int)
  singleLocal : NaiveDateTime → Bool
  now : NaiveDateTime

/-- Model of `Local.from_local_datetime(&dt).single()`: the unique local
interpretation of a naive wall-clock datetime, when there is one. -/
def fromLocalSingle (env : DateEnv) (dt : NaiveDateTime) : Option NaiveDateTime :=
  if env.singleLocal dt then some dt else none

/-! ### Data model (`types.rs`) -/

/-- The `Project` payload of `types.rs`. -/
structure Project where
  id : String
  name : String
  color : Option String
  closed : Option Bool
  group_id : Option String
  view_mode : Option String
  permission : Option String
  kind : Option String
deriving Repr, DecidableEq

/-- The `ChecklistItem` payload of `types.rs` (status 0 = normal,
1 = completed). -/
structure ChecklistItem where
  id : Option String
  title : String
  status : Int
  completed_time : Option String
  is_all_day : Option Bool
  sort_order : Option Int
  start_date : Option String
  time_zone : Option String
deriving Repr, DecidableEq

/-- The `Task` payload of `types.rs` (status 0 = normal, 2 = completed). -/
structure Task where
  id : String
  project_id : String
  title : String
  is_all_day : Option Bool
  completed_time : Option String
  content : Option String
  desc : Option String
  due_date : Option String
  items : Option (List ChecklistItem)
  priority : Option Int
  reminders : Option (List String)
  repeat_flag : Option String
  sort_order : Option Int
  start_date : Option String
  status : Int
  time_zone : Option String
deriving Repr, DecidableEq

/-- The `ProjectData` payload of `types.rs`.  The `columns` field holds
opaque `serde_json::Value`s the program never reads; each value is
modelled by its raw text. -/
structure ProjectData where
  project : Project
  tasks : List Task
  columns : Option (List String)
deriving Repr, DecidableEq

/-- A task with every optional field absent, used to build concrete test
tasks by field update. -/
def emptyTask : Task :=
  { id := "", project_id := "", title := "", is_all_day := none,
    completed_time := none, content := none, desc := none, due_date := none,
    items := none, priority := none, reminders := none, repeat_flag := none,
    sort_order := none, start_date := none, status := 0, time_zone := none }

/-- A project with every optional field absent. -/
def simpleProject (id name : String) : Project :=
  { id := id, name := name, color := none, closed := none, group_id := none,
    view_mode := none, permission := none, kind := none }

/-! ### Due-today check (`client.rs::is_task_due_today`) -/

/-- The second block of `is_task_due_today` (client.rs lines 193 to 206):
check whether the task's `start_date` resolves to today. -/
def checkStartDate (env : DateEnv) (today : NaiveDate) (task : Task) : Bool :=
  match task.start_date with
  | some start_date_str =>
    match env.parse start_date_str with
    | some (start_date, _) =>
      let start_date_local :=
        ((fromLocalSingle env start_date).map NaiveDateTime.date).getD start_date.date
      start_date_local == today
    | none => false
  | none => false

/-- Translation of `client.rs::is_task_due_today`: the due date is
checked first and short-circuits to `true` on a hit; otherwise the start
date is checked. -/
def is_task_due_today (env : DateEnv) (task : Task) : Bool :=
  let today := env.now.date
  match task.due_date with
  | some due_date_str =>
    match env.parse due_date_str with
    | some (due_date, _) =>
      let due_date_local :=
        ((fromLocalSingle env due_date).map NaiveDateTime.date).getD due_date.date
      if due_date_local == today then true
      else checkStartDate env today task
    | none => checkStartDate env today task
  | none => checkStartDate env today task

/-! ### Display formatting (`display.rs::format_time`) -/

/-- The rendering part of `display.rs::format_time`: "Today HH:MM",
"Tomorrow HH:MM" or "MMM DD HH:MM" by comparing the resolved datetime's
date with the current local date. -/
def renderRelative (now local_datetime : NaiveDateTime) : String :=
  let today := now.date
  let datetime_date := local_datetime.date
  if datetime_date == today then
    "Today " ++ fmtHM local_datetime
  else if datetime_date == nextDay today then
    "Tomorrow " ++ fmtHM local_datetime
  else
    fmtMDHM local_datetime

/-- Translation of `display.rs::format_time`.  The parsed naive datetime
is resolved against the local timezone with
`.single().unwrap_or_else(|| Local::now())`: when the local
interpretation is not unique the CURRENT time is used, not the parsed
value. -/
def format_time (env : DateEnv) (date_str : String) : String :=
  match env.parse date_str with
  | some (datetime, _) =>
    let local_datetime := (fromLocalSingle env datetime).getD env.now
    renderRelative env.now local_datetime
  | none => "Invalid time"

/-- Modelled from the spec: the variant of `format_time` whose
ambiguous/nonexistent-local-time fallback uses "the date component of the
parsed value directly" (spec section 4.1), kept for comparison with the
source's `format_time`. -/
def format_time_spec_fallback (env : DateEnv) (date_str : String) : String :=
  match env.parse date_str with
  | some (datetime, _) =>
    let local_datetime := (fromLocalSingle env datetime).getD datetime
    renderRelative env.now local_datetime
  | none => "Invalid time"

/-- An environment identical to `env` except that every timezone offset
`dtparse` reports is discarded at the source. Used to state that the
program never consults the offset. -/
def stripOffsets (env : DateEnv) : DateEnv :=
  { env with parse := fun s => (env.parse s).map (fun p => (p.1, none)) }

/-! ### Task aggregation (`client.rs::get_todays_tasks`)

Network effects are explicit inputs: `get_projects` is the result of
`self.get_projects().await` and `get_project_data` maps a project id to
the result of `self.get_project_data(id).await`, with the `anyhow` error
rendered as its message text.  The `println!` recording a per-project
failure (client.rs line 234) is modelled as an explicit output list of
printed lines; the function's Rust return value is the task list alone. -/

/-- One iteration of the `for project in projects` loop of
`get_todays_tasks`: on success the inner loop appends every task with
`status == 0` that is due today, on failure one failure line is
printed. -/
def projectStep (denv : DateEnv) (get_project_data : String → Except String ProjectData)
    (acc : List Task × List String) (project : Project) : List Task × List String :=
  match get_project_data project.id with
  | .ok project_data =>
    (acc.1 ++ project_data.tasks.filter
        (fun task => task.status == 0 && is_task_due_today denv task),
     acc.2)
  | .error e =>
    (acc.1, acc.2 ++ ["Failed to get data for project " ++ project.name ++ ": " ++ e])

/-- Translation of `client.rs::get_todays_tasks`.  The `?` on
`self.get_projects()` propagates that failure; each project's data fetch
is handled by `projectStep`.  The result pairs the returned task list
with the printed failure lines. -/
def get_todays_tasks (denv : DateEnv)
    (get_project_data : String → Except String ProjectData)
    (get_projects : Except String (List Project)) :
    Except String (List Task × List String) :=
  match get_projects with
  | .error e => .error e
  | .ok projects => .ok (projects.foldl (projectStep denv get_project_data) ([], []))

/-- The tasks `get_todays_tasks` keeps from one project: every task of a
successfully fetched project with `status == 0` that is due today, and
nothing from a failed project. -/
def qualifyingTasks (denv : DateEnv)
    (get_project_data : String → Except String ProjectData) (p : Project) : List Task :=
  match get_project_data p.id with
  | .ok pd => pd.tasks.filter (fun t => t.status == 0 && is_task_due_today denv t)
  | .error _ => []

/-- The failure lines `get_todays_tasks` prints for one project. -/
def failureLines (get_project_data : String → Except String ProjectData)
    (p : Project) : List String :=
  match get_project_data p.id with
  | .ok _ => []
  | .error e => ["Failed to get data for project " ++ p.name ++ ": " ++ e]

/-! ### Callback listener (`auth.rs::start_callback_server`)

The warp route holds an `Arc<Mutex<Option<oneshot::Sender<String>>>>`;
each `/callback` request locks the mutex, `take()`s the sender if it is
still there, and sends at most once.  The mutex serialises the handler
bodies, so processing a list of requests in arrival order is a faithful
model of any interleaving.  The oneshot receiver side is alive until
`rx.await` returns, so a performed `send` always stores its value. -/

/-- Query parameters of one HTTP request to `/callback`
(`warp::query::<HashMap<String, String>>`, restricted to the two keys the
handler reads). -/
structure CallbackRequest where
  code : Option String
  error : Option String
deriving Repr, DecidableEq

/-- The handler's reply: the static success page, the static error page,
or `warp::reject::not_found()`. -/
inductive CallbackReply where
  | successPage
  | errorPage
  | notFound
deriving Repr, DecidableEq

/-- Listener state: whether the oneshot sender has been `take()`n out of
the mutex, and the value (if any) stored in the oneshot channel. -/
structure ListenerState where
  senderTaken : Bool
  channel : Option String
deriving Repr, DecidableEq

/-- State before any request: the sender is in place, nothing sent. -/
def initialListener : ListenerState := { senderTaken := false, channel := none }

/-- Translation of the warp handler closure of `start_callback_server`
(auth.rs lines 103 to 162).  A `code` parameter wins over `error`; the
send happens only if the sender is still present; the page is returned
regardless. -/
def handle_callback (st : ListenerState) (req : CallbackRequest) :
    ListenerState × CallbackReply :=
  match req.code with
  | some code =>
    (if st.senderTaken then st else { senderTaken := true, channel := some code },
     .successPage)
  | none =>
    match req.error with
    | some err =>
      (if st.senderTaken then st
       else { senderTaken := true, channel := some ("ERROR:" ++ err) },
       .errorPage)
    | none => (st, .notFound)

/-- The listener state after a sequence of `/callback` requests, in
arrival order. -/
def processRequests (st : ListenerState) (reqs : List CallbackRequest) : ListenerState :=
  reqs.foldl (fun s r => (handle_callback s r).1) st

/-- The value a single request would put into the oneshot channel, if it
found the sender: the `code` parameter verbatim, or the `error` parameter
tagged with the in-band "ERROR:" marker. -/
def requestPayload (req : CallbackRequest) : Option String :=
  match req.code with
  | some code => some code
  | none => req.error.map (fun e => "ERROR:" ++ e)

/-- Model of `&code[6..]`: for a string starting with the six ASCII bytes
of "ERROR:", Rust's byte slice `[6..]` is exactly dropping six
characters. -/
def stripSix (code : String) : String := String.mk (code.data.drop 6)

/-- Translation of the `rx.await` result handling of
`start_callback_server` (auth.rs lines 174 to 183): `code.starts_with`
is character-prefix testing on the received string. -/
def awaitResult (channel : Option String) : Except String String :=
  match channel with
  | some code =>
    if "ERROR:".data.isPrefixOf code.data then
      .error ("Authorization error: " ++ stripSix code)
    else .ok code
  | none => .error "Failed to receive authorization code"

/-- End-to-end model of `start_callback_server` as a function of the
requests that reach `/callback`: the background server task processes
them in order while the caller blocks on the oneshot receiver. -/
def start_callback_server (reqs : List CallbackRequest) : Except String String :=
  awaitResult (processRequests initialListener reqs).channel

/-! ### Token exchange (`client.rs::exchange_code_for_token`)

The HTTP call is modelled by the response it produced; serde
deserialisation of the token payload and `Config::save` are environment
functions.  The mutations of `self.access_token` and
`config.ticktick.access_token` are explicit: the outcome carries the
final client and config states next to the `Result`. -/

/-- The `TokenResponse` payload of `types.rs`. -/
structure TokenResponse where
  access_token : String
  token_type : String
  expires_in : Option Nat
  refresh_token : Option String
  scope : String
deriving Repr, DecidableEq

/-- The `TickTickConfig` section of `config.rs`. -/
structure TickTickConfig where
  client_id : String
  client_secret : String
  redirect_uri : String
  access_token : Option String
deriving Repr, DecidableEq

/-- The `Config` of `config.rs`. -/
structure Config where
  ticktick : TickTickConfig
deriving Repr, DecidableEq

/-- The client state of `client.rs::TickTickClient` (the `reqwest`
connection handle carries no observable state and is omitted). -/
structure TickTickClient where
  access_token : Option String
  client_id : String
  client_secret : String
  redirect_uri : String
deriving Repr, DecidableEq

/-- An HTTP response as the program observes it: status code and body
text. -/
structure HttpResponse where
  status : Nat
  body : String
deriving Repr, DecidableEq

/-- `reqwest::StatusCode::is_success`: 2xx. -/
def isSuccessStatus (status : Nat) : Bool := 200 ≤ status && status < 300

/-- Environment of the token exchange: serde decoding of the token
payload (`None` models a `serde_json` decode failure) and whether
`Config::save` succeeds on a given config. -/
structure HttpEnv where
  parseTokenResponse : String → Option TokenResponse
  saveOk : Config → Bool

/-- The distinguishable error outcomes of `exchange_code_for_token`: the
`anyhow!` error carrying the non-2xx body, the propagated serde decode
error, and the propagated `Config::save` error. -/
inductive ExchangeError where
  | httpError (msg : String)
  | decodeError (body : String)
  | saveError
deriving Repr, DecidableEq

/-- Result plus final mutable state of `exchange_code_for_token`. -/
structure ExchangeOutcome where
  result : Except ExchangeError Unit
  client : TickTickClient
  config : Config
deriving Repr

/-! ### Authorization URL (`client.rs::get_authorization_url`)

`Url::query_pairs_mut().append_pair` serialises each pair with the
application/x-www-form-urlencoded byte serialiser of the `url` crate:
ASCII alphanumerics and `*-._` pass through, a space becomes `+`, every
other byte becomes `%XX` with uppercase hex.  Because the serialiser is
byte-wise over the UTF-8 encoding, strings are modelled here as their
UTF-8 byte lists. -/

/-- A Rust `String`/`str` as its list of UTF-8 byte values. -/
abbrev ByteStr := List Nat

/-- Every element is an actual byte value. -/
abbrev ValidBytes (s : ByteStr) : Prop := ∀ b ∈ s, b < 256

/-- UTF-8 encoding of one scalar value. -/
def utf8EncodeChar (c : Char) : List Nat :=
  let n := c.toNat
  if n < 128 then [n]
  else if n < 2048 then [192 + n / 64, 128 + n % 64]
  else if n < 65536 then [224 + n / 4096, 128 + (n / 64) % 64, 128 + n % 64]
  else [240 + n / 262144, 128 + (n / 4096) % 64, 128 + (n / 64) % 64, 128 + n % 64]

/-- The UTF-8 bytes of a Lean string, for writing byte-level literals. -/
def strBytes (s : String) : ByteStr := s.data.flatMap utf8EncodeChar

/-- Bytes the form-urlencoded serialiser passes through unchanged:
ASCII alphanumerics and `*-._`. -/
def isFormUnreservedByte (b : Nat) : Bool :=
  (48 ≤ b && b ≤ 57) || (65 ≤ b && b ≤ 90) || (97 ≤ b && b ≤ 122) ||
  b == 42 || b == 45 || b == 46 || b == 95

/-- Uppercase hexadecimal digit, as the `url` crate emits. -/
def hexDigitByte (n : Nat) : Nat := if n < 10 then 48 + n else 55 + n

/-- Serialisation of one byte by the form-urlencoded serialiser. -/
def encodeByte (b : Nat) : List Nat :=
  if isFormUnreservedByte b then [b]
  else if b == 32 then [43]
  else [37, hexDigitByte (b / 16), hexDigitByte (b % 16)]

/-- Form-urlencoded serialisation of a byte string
(`url::form_urlencoded`, as used by `append_pair`). -/
def formEncode (s : ByteStr) : ByteStr := s.flatMap encodeByte

/-- Value of a hexadecimal digit byte, either case. -/
def hexVal (b : Nat) : Option Nat :=
  if 48 ≤ b && b ≤ 57 then some (b - 48)
  else if 65 ≤ b && b ≤ 70 then some (b - 55)
  else if 97 ≤ b && b ≤ 102 then some (b - 87)
  else none

/-- Form-urlencoded percent-decoding, the standard left inverse of
`formEncode` used to state what the produced query carries. -/
def formDecode : ByteStr → ByteStr
  | [] => []
  | b :: rest =>
    if b = 37 then
      match rest with
      | h :: l :: rest2 => ((hexVal h).getD 0 * 16 + (hexVal l).getD 0) :: formDecode rest2
      | _ => b :: rest
    else if b = 43 then 32 :: formDecode rest
    else b :: formDecode rest

/-- Split a byte string at every occurrence of a separator byte. -/
def splitOnByte (sep : Nat) : ByteStr → List ByteStr
  | [] => [[]]
  | b :: rest =>
    if b = sep then [] :: splitOnByte sep rest
    else
      match splitOnByte sep rest with
      | [] => [[b]]
      | h :: t => (b :: h) :: t

/-- Decode one `key=value` query component. -/
def decodePair (p : ByteStr) : ByteStr × ByteStr :=
  (formDecode (p.takeWhile (fun b => b != 61)),
   formDecode ((p.dropWhile (fun b => b != 61)).drop 1))

/-- Decode a query string into its key/value pairs. -/
def decodeQueryPairs (q : ByteStr) : List (ByteStr × ByteStr) :=
  (splitOnByte 38 q).map decodePair

/-- One serialised `key=value` component as `append_pair` emits it
(61 is `=`). -/
def queryComponent (key : String) (value : ByteStr) : ByteStr :=
  strBytes key ++ 61 :: formEncode value

/-- The query string `get_authorization_url` appends: the five pairs in
their `append_pair` order, joined by `&` (byte 38). -/
def authQuery (client_id redirect_uri state : ByteStr) : ByteStr :=
  queryComponent "client_id" client_id ++ 38 ::
  (queryComponent "scope" (strBytes "tasks:read") ++ 38 ::
  (queryComponent "state" state ++ 38 ::
  (queryComponent "redirect_uri" redirect_uri ++ 38 ::
  queryComponent "response_type" (strBytes "code"))))

/-- Translation of `client.rs::get_authorization_url` at the UTF-8 byte
level: the fixed authorize endpoint (63 is `?`) followed by the five
form-urlencoded query pairs in their `append_pair` order.  The function
is a pure function of `client_id`, `redirect_uri` and `state`, hence
deterministic. -/
def get_authorization_url (client_id redirect_uri state : ByteStr) : ByteStr :=
  strBytes "https://ticktick.com/oauth/authorize" ++ 63 ::
    authQuery client_id redirect_uri state

/-- Translation of `client.rs::exchange_code_for_token` from the point
the response is available (lines 103 to 120).  On a 2xx response the body
is decoded; only after a successful decode are `self.access_token` and
`config.ticktick.access_token` assigned and `config.save()` called.  On a
non-2xx response the error message embeds the response body text. -/
def exchange_code_for_token (env : HttpEnv) (st : TickTickClient) (cfg : Config)
    (response : HttpResponse) : ExchangeOutcome :=
  if isSuccessStatus response.status then
    match env.parseTokenResponse response.body with
    | some token_response =>
      let st' := { st with access_token := some token_response.access_token }
      let cfg' := { cfg with ticktick :=
        { cfg.ticktick with access_token := some token_response.access_token } }
      if env.saveOk cfg' then { result := .ok (), client := st', config := cfg' }
      else { result := .error .saveError, client := st', config := cfg' }
    | none =>
      { result := .error (.decodeError response.body), client := st, config := cfg }
  else
    { result := .error (.httpError ("Failed to exchange code for token: " ++ response.body)),
      client := st, config := cfg }

/-! ### Concrete fixtures for witnesses and counterexamples -/

/-- A date environment in which two strings parse, today is
January 15 2024, and every wall-clock datetime resolves uniquely. -/
def denv0 : DateEnv :=
  { parse := fun s =>
      if s = "2024-01-15" then
        some ({ date := { year := 2024, month := 1, day := 15 }, hour := 10, minute := 0 }, none)
      else if s = "2024-02-20" then
        some ({ date := { year := 2024, month := 2, day := 20 }, hour := 10, minute := 0 }, none)
      else none,
    singleLocal := fun _ => true,
    now := { date := { year := 2024, month := 1, day := 15 }, hour := 8, minute := 0 } }

/-- Mock projects: the data fetch for `Project B` will fail. -/
def projA : Project := simpleProject "p1" "Project A"

/-- Second mock project, whose data endpoint answers 500. -/
def projB : Project := simpleProject "p2" "Project B"

/-- Third mock project. -/
def projC : Project := simpleProject "p3" "Project C"

/-- Uncompleted task of project A due today: qualifies. -/
def taskT1 : Task :=
  { emptyTask with id := "t1", project_id := "p1", title := "alpha",
                   due_date := some "2024-01-15" }

/-- Completed task of project A due today: dropped. -/
def taskT2 : Task :=
  { emptyTask with id := "t2", project_id := "p1", title := "beta",
                   status := 2, due_date := some "2024-01-15" }

/-- Uncompleted task of project A due on another date: dropped. -/
def taskT3 : Task :=
  { emptyTask with id := "t3", project_id := "p1", title := "gamma",
                   due_date := some "2024-02-20" }

/-- Uncompleted task of project C starting today: qualifies. -/
def taskT4 : Task :=
  { emptyTask with id := "t4", project_id := "p3", title := "delta",
                   start_date := some "2024-01-15" }

/-- Project data returned for project A. -/
def pdataA : ProjectData := { project := projA, tasks := [taskT1, taskT2, taskT3], columns := none }

/-- Project data returned for project C. -/
def pdataC : ProjectData := { project := projC, tasks := [taskT4], columns := none }

/-- Mock per-project fetch: projects A and C succeed, everything else
(in particular project B) answers with a 500 error. -/
def fetch0 : String → Except String ProjectData := fun id =>
  if id = "p1" then .ok pdataA
  else if id = "p3" then .ok pdataC
  else .error "500 Internal Server Error"

/-- A date environment in which the one parseable string carries an
explicit UTC offset, the local timezone resolves no wall clock uniquely
(as during a daylight-saving transition), and the current local date
differs from the parsed date. -/
def envAmbiguous : DateEnv :=
  { parse := fun s =>
      if s = "2024-07-07T09:30:00+00:00" then
        some ({ date := { year := 2024, month := 7, day := 7 }, hour := 9, minute := 30 }, some 0)
      else none,
    singleLocal := fun _ => false,
    now := { date := { year := 2024, month := 7, day := 5 }, hour := 11, minute := 45 } }

/-- Token-exchange environment: exactly one body decodes, saving always
succeeds. -/
def httpEnv0 : HttpEnv :=
  { parseTokenResponse := fun body =>
      if body = "good-token-body" then
        some { access_token := "tok123", token_type := "bearer", expires_in := none,
               refresh_token := none, scope := "tasks:read" }
      else none,
    saveOk := fun _ => true }

/-- A client before any token exchange. -/
def client0 : TickTickClient :=
  { access_token := none, client_id := "cid", client_secret := "sec",
    redirect_uri := "http://localhost:8080/callback" }

/-- A config holding a previously saved token. -/
def config0 : Config :=
  { ticktick := { client_id := "cid", client_secret := "sec",
                  redirect_uri := "http://localhost:8080/callback",
                  access_token := some "oldtok" } }

/-- A rejected token exchange: non-2xx with an error body. -/
def respRejected : HttpResponse := { status := 400, body := "invalid_grant" }

/-- A 2xx token response whose body does not decode. -/
def respBadBody : HttpResponse := { status := 200, body := "not-a-token-payload" }

/-! ## Theorems -/

/-! ### Callback listener -/

/-- Once the oneshot sender has been taken, a request leaves the whole
listener state unchanged. -/
theorem handle_callback_taken (st : ListenerState) (req : CallbackRequest)
    (h : st.senderTaken = true) : (handle_callback st req).1 = st := by
  unfold handle_callback
  cases req.code with
  | some code => simp [h]
  | none =>
    cases req.error with
    | some err => simp [h]
    | none => rfl

/-- Once the oneshot sender has been taken, no sequence of further
requests changes the listener state. -/
theorem processRequests_taken (st : ListenerState) (reqs : List CallbackRequest)
    (h : st.senderTaken = true) : processRequests st reqs = st := by
  induction reqs with
  | nil => rfl
  | cons r rs ih =>
    show processRequests (handle_callback st r).1 rs = st
    rw [handle_callback_taken st r h]
    exact ih

/-- C3: for every sequence of requests reaching `/callback`, the value
delivered through the oneshot channel is exactly the payload of the
first request bearing a `code` or `error` parameter (`code` verbatim,
`error` with the in-band "ERROR:" marker); requests before it deliver
nothing and requests after it change nothing, so at most one value is
ever delivered to the waiting caller. -/
theorem callback_first_request_wins (reqs : List CallbackRequest) :
    (processRequests initialListener reqs).channel = reqs.findSome? requestPayload := by
  induction reqs with
  | nil => rfl
  | cons r rs ih =>
    show (processRequests (handle_callback initialListener r).1 rs).channel = _
    cases hc : r.code with
    | some code =>
      have hp : requestPayload r = some code := by simp [requestPayload, hc]
      have hstep : (handle_callback initialListener r).1 =
          { senderTaken := true, channel := some code } := by
        simp [handle_callback, hc, initialListener]
      rw [hstep, processRequests_taken _ _ rfl]
      simp [List.findSome?_cons, hp]
    | none =>
      cases he : r.error with
      | some err =>
        have hp : requestPayload r = some ("ERROR:" ++ err) := by
          simp [requestPayload, hc, he]
        have hstep : (handle_callback initialListener r).1 =
            { senderTaken := true, channel := some ("ERROR:" ++ err) } := by
          simp [handle_callback, hc, he, initialListener]
        rw [hstep, processRequests_taken _ _ rfl]
        simp [List.findSome?_cons, hp]
      | none =>
        have hp : requestPayload r = none := by simp [requestPayload, hc, he]
        have hstep : (handle_callback initialListener r).1 = initialListener := by
          simp [handle_callback, hc, he]
        rw [hstep]
        rw [ih]
        simp [List.findSome?_cons, hp]

/-- Witness for C3 at a concrete pair of competing requests: the first
`code` wins and the second has no effect on the delivered value. -/
theorem callback_first_request_wins_witness :
    (processRequests initialListener
        [{ code := some "abc", error := none }, { code := some "xyz", error := none }]).channel =
      ([{ code := some "abc", error := none },
        { code := some "xyz", error := none }] : List CallbackRequest).findSome? requestPayload ∧
    (processRequests initialListener
        [{ code := some "abc", error := none }, { code := some "xyz", error := none }]).channel =
      some "abc" :=
  ⟨callback_first_request_wins _, by decide⟩

/-- C4 counterexample: after the listener has delivered its result
(channel already holds "abc"), a further `/callback` request is still
serviced — the handler replies with the full success page rather than
refusing — so the listener has not shut down.  (The server task is
spawned at auth.rs line 171 and never cancelled.) -/
theorem callback_no_shutdown_counterexample :
    ((processRequests initialListener [{ code := some "abc", error := none }]).channel =
      some "abc") ∧
    handle_callback (processRequests initialListener [{ code := some "abc", error := none }])
        { code := some "xyz", error := none } =
      (processRequests initialListener [{ code := some "abc", error := none }],
       .successPage) := by
  constructor
  · rfl
  · rfl

/-- C4 amended: after the result has been delivered the spawned server
keeps running: every further `/callback` request is still serviced (it is
answered with the success or error page whenever it bears a `code` or
`error` parameter, and with not-found otherwise), but no further request
can change the listener state, in particular not the delivered value. -/
theorem callback_listener_keeps_serving (st : ListenerState) (req : CallbackRequest)
    (h : st.senderTaken = true) :
    (handle_callback st req).1 = st ∧
    ((handle_callback st req).2 = .notFound ↔ req.code = none ∧ req.error = none) := by
  refine ⟨handle_callback_taken st req h, ?_⟩
  unfold handle_callback
  cases req.code with
  | some code => simp
  | none =>
    cases req.error with
    | some err => simp
    | none => simp

/-- Witness for the amended C4 at a concrete fulfilled state and a
concrete later request. -/
theorem callback_listener_keeps_serving_witness :
    ({ senderTaken := true, channel := some "abc" } : ListenerState).senderTaken = true ∧
    ((handle_callback { senderTaken := true, channel := some "abc" }
        { code := some "xyz", error := none }).1 =
      { senderTaken := true, channel := some "abc" } ∧
    ((handle_callback { senderTaken := true, channel := some "abc" }
        { code := some "xyz", error := none }).2 = .notFound ↔
      ({ code := some "xyz", error := none } : CallbackRequest).code = none ∧
      ({ code := some "xyz", error := none } : CallbackRequest).error = none)) :=
  ⟨rfl, callback_listener_keeps_serving _ _ rfl⟩

/-- C9: a `/callback` request whose `code` parameter itself starts with
the six characters "ERROR:" is reported to the waiting caller as an
authorization error with those six characters stripped — exactly the
outcome of a request carrying the rest as an `error` parameter — and is
never delivered as an authorization code. -/
theorem code_with_error_marker_reported_as_error (s : String) :
    start_callback_server [{ code := some ("ERROR:" ++ s), error := none }] =
      .error ("Authorization error: " ++ s) ∧
    start_callback_server [{ code := some ("ERROR:" ++ s), error := none }] =
      start_callback_server [{ code := none, error := some s }] := by
  have hchan : (processRequests initialListener
      [{ code := some ("ERROR:" ++ s), error := none }]).channel = some ("ERROR:" ++ s) := rfl
  have hchan2 : (processRequests initialListener
      [{ code := none, error := some s }]).channel = some ("ERROR:" ++ s) := rfl
  have hpre : "ERROR:".data.isPrefixOf ("ERROR:" ++ s).data = true := by
    rw [String.data_append, List.isPrefixOf_iff_prefix]
    exact List.prefix_append _ _
  have hstrip : stripSix ("ERROR:" ++ s) = s := by
    show String.mk (("ERROR:" ++ s).data.drop 6) = s
    rw [String.data_append]
    have h6 : ("ERROR:".data).length = 6 := rfl
    rw [← h6, List.drop_left]
  constructor
  · show awaitResult (some ("ERROR:" ++ s)) = .error ("Authorization error: " ++ s)
    simp [awaitResult, hpre, hstrip]
  · show awaitResult (some ("ERROR:" ++ s)) = awaitResult (some ("ERROR:" ++ s))
    rfl

/-- Witness for C9 at the concrete in-band string "ERROR:denied". -/
theorem code_with_error_marker_reported_as_error_witness :
    start_callback_server
        [{ code := some ("ERROR:" ++ "denied"), error := none }] =
      .error ("Authorization error: " ++ "denied") ∧
    start_callback_server
        [{ code := some ("ERROR:" ++ "denied"), error := none }] =
      start_callback_server [{ code := none, error := some "denied" }] :=
  code_with_error_marker_reported_as_error "denied"

/-! ### Task aggregation -/

/-- Closed form of the aggregation loop of `get_todays_tasks`: starting
from any accumulator it appends, per project in order, the qualifying
tasks and the failure lines. -/
theorem foldl_projectStep (denv : DateEnv)
    (fetch : String → Except String ProjectData) (ps : List Project)
    (acc : List Task × List String) :
    ps.foldl (projectStep denv fetch) acc =
      (acc.1 ++ ps.flatMap (qualifyingTasks denv fetch),
       acc.2 ++ ps.flatMap (failureLines fetch)) := by
  induction ps generalizing acc with
  | nil => simp
  | cons p ps ih =>
    show ps.foldl (projectStep denv fetch) (projectStep denv fetch acc p) = _
    rw [ih]
    unfold projectStep qualifyingTasks failureLines
    cases hf : fetch p.id with
    | ok pd => simp [hf]
    | error e => simp [hf]

/-- C1: whenever `get_todays_tasks` runs over a successfully fetched
project list, it returns without error a task list in which every task
has `status == 0` and is due today, and which contains every task of
every successfully fetched project that meets both conditions; all other
tasks are simply absent from the result, never reported as an error. -/
theorem todays_tasks_filter_invariant (denv : DateEnv)
    (fetch : String → Except String ProjectData) (ps : List Project)
    (tasks : List Task) (log : List String)
    (h : get_todays_tasks denv fetch (.ok ps) = .ok (tasks, log)) :
    (∀ t ∈ tasks, t.status = 0 ∧ is_task_due_today denv t = true) ∧
    (∀ p ∈ ps, ∀ pd, fetch p.id = .ok pd →
      ∀ t ∈ pd.tasks, t.status = 0 → is_task_due_today denv t = true → t ∈ tasks) := by
  have hval : tasks = ps.flatMap (qualifyingTasks denv fetch) := by
    have h2 : (Except.ok (ps.foldl (projectStep denv fetch) ([], [])) :
        Except String (List Task × List String)) = .ok (tasks, log) := h
    rw [foldl_projectStep] at h2
    simp at h2
    exact h2.1.symm
  subst hval
  constructor
  · intro t ht
    rw [List.mem_flatMap] at ht
    obtain ⟨p, _, htq⟩ := ht
    unfold qualifyingTasks at htq
    cases hf : fetch p.id with
    | ok pd =>
      rw [hf] at htq
      rw [List.mem_filter] at htq
      have hcond := htq.2
      simp at hcond
      exact ⟨hcond.1, hcond.2⟩
    | error e => rw [hf] at htq; simp at htq
  · intro p hp pd hpd t ht hstatus hdue
    rw [List.mem_flatMap]
    refine ⟨p, hp, ?_⟩
    unfold qualifyingTasks
    rw [hpd, List.mem_filter]
    exact ⟨ht, by simp [hstatus, hdue]⟩

/-- Witness for C1 at the three-project mock: the returned tasks are
exactly the uncompleted due-today tasks of the two fetchable projects. -/
theorem todays_tasks_filter_invariant_witness :
    get_todays_tasks denv0 fetch0 (.ok [projA, projB, projC]) =
      .ok ([taskT1, taskT4],
           ["Failed to get data for project Project B: 500 Internal Server Error"]) ∧
    ((∀ t ∈ [taskT1, taskT4], t.status = 0 ∧ is_task_due_today denv0 t = true) ∧
     (∀ p ∈ [projA, projB, projC], ∀ pd, fetch0 p.id = .ok pd →
       ∀ t ∈ pd.tasks, t.status = 0 → is_task_due_today denv0 t = true →
         t ∈ [taskT1, taskT4])) :=
  ⟨by rfl, todays_tasks_filter_invariant denv0 fetch0 [projA, projB, projC] _ _ (by rfl)⟩

/-- C2: `get_todays_tasks` never aborts because one project's data fetch
failed: over any per-project fetch outcomes it returns (without error)
the qualifying tasks of every successfully fetched project, and for every
failed project the printed record names the project and the failure. -/
theorem todays_tasks_failure_record (denv : DateEnv)
    (fetch : String → Except String ProjectData) (ps : List Project) :
    ∃ tasks log, get_todays_tasks denv fetch (.ok ps) = .ok (tasks, log) ∧
      (∀ p ∈ ps, ∀ e, fetch p.id = .error e →
        ("Failed to get data for project " ++ p.name ++ ": " ++ e) ∈ log) ∧
      (∀ p ∈ ps, ∀ pd, fetch p.id = .ok pd →
        ∀ t ∈ pd.tasks, t.status = 0 → is_task_due_today denv t = true → t ∈ tasks) := by
  refine ⟨ps.flatMap (qualifyingTasks denv fetch), ps.flatMap (failureLines fetch), ?_, ?_, ?_⟩
  · show (Except.ok (ps.foldl (projectStep denv fetch) ([], [])) :
      Except String (List Task × List String)) = _
    rw [foldl_projectStep]
    simp
  · intro p hp e he
    rw [List.mem_flatMap]
    refine ⟨p, hp, ?_⟩
    unfold failureLines
    rw [he]
    simp
  · intro p hp pd hpd t ht hstatus hdue
    rw [List.mem_flatMap]
    refine ⟨p, hp, ?_⟩
    unfold qualifyingTasks
    rw [hpd, List.mem_filter]
    exact ⟨ht, by simp [hstatus, hdue]⟩

/-- Witness for C2 at the three-project mock where project B's data
endpoint fails with a 500: the result keeps the qualifying tasks of
projects A and C and the failure record names project B. -/
theorem todays_tasks_failure_record_witness :
    (∃ tasks log, get_todays_tasks denv0 fetch0 (.ok [projA, projB, projC]) =
        .ok (tasks, log) ∧
      (∀ p ∈ [projA, projB, projC], ∀ e, fetch0 p.id = .error e →
        ("Failed to get data for project " ++ p.name ++ ": " ++ e) ∈ log) ∧
      (∀ p ∈ [projA, projB, projC], ∀ pd, fetch0 p.id = .ok pd →
        ∀ t ∈ pd.tasks, t.status = 0 → is_task_due_today denv0 t = true → t ∈ tasks)) ∧
    get_todays_tasks denv0 fetch0 (.ok [projA, projB, projC]) =
      .ok ([taskT1, taskT4],
           ["Failed to get data for project Project B: 500 Internal Server Error"]) :=
  ⟨todays_tasks_failure_record denv0 fetch0 [projA, projB, projC], by rfl⟩

/-! ### Date resolution -/

/-- The start-date block never consults the offset `dtparse` reports. -/
theorem checkStartDate_stripOffsets (env : DateEnv) (today : NaiveDate) (task : Task) :
    checkStartDate (stripOffsets env) today task = checkStartDate env today task := by
  cases hsd : task.start_date with
  | none => simp [checkStartDate, hsd]
  | some s =>
    cases hp : env.parse s with
    | none => simp [checkStartDate, hsd, stripOffsets, hp]
    | some pr =>
      obtain ⟨d1, o1⟩ := pr
      simp [checkStartDate, hsd, stripOffsets, hp, fromLocalSingle]

/-- C5 counterexample: on a string whose local resolution is ambiguous,
`format_time` does not fall back to the date component of the parsed
value (July 7) — it falls back to `Local::now()` and renders the parsed
instant as "Today" at the current time. -/
theorem format_time_fallback_counterexample :
    format_time envAmbiguous "2024-07-07T09:30:00+00:00" = "Today 11:45 AM" ∧
    format_time_spec_fallback envAmbiguous "2024-07-07T09:30:00+00:00" = "Jul 07 09:30 AM" ∧
    format_time envAmbiguous "2024-07-07T09:30:00+00:00" ≠
      format_time_spec_fallback envAmbiguous "2024-07-07T09:30:00+00:00" := by
  refine ⟨rfl, rfl, ?_⟩
  decide

/-- C5 amended: every parsed due/start date-time is interpreted as local
wall-clock time — both the due-today check and the display formatter are
unchanged when the parser's reported UTC offsets are discarded at the
source, and the due-today check compares exactly the parsed wall-clock
date with today whether or not local resolution is unique — but on an
ambiguous or nonexistent local time only the due-today check falls back
to the parsed date component; the display formatter falls back to the
current local time `Local::now()` instead. -/
theorem naive_local_interpretation (env : DateEnv) (task : Task) (s : String)
    (d : NaiveDateTime) (off : Option Int)
    (hparse : env.parse s = some (d, off)) :
    is_task_due_today (stripOffsets env) task = is_task_due_today env task ∧
    format_time (stripOffsets env) s = format_time env s ∧
    is_task_due_today env { emptyTask with due_date := some s } = (d.date == env.now.date) ∧
    (env.singleLocal d = false → format_time env s = renderRelative env.now env.now) := by
  refine ⟨?_, ?_, ?_, ?_⟩
  · have hnow2 : (stripOffsets env).now = env.now := rfl
    cases hd : task.due_date with
    | none =>
      simp only [is_task_due_today, hd, hnow2]
      exact checkStartDate_stripOffsets env _ task
    | some ds =>
      cases hp : env.parse ds with
      | none =>
        have hp2 : (stripOffsets env).parse ds = none := by simp [stripOffsets, hp]
        simp only [is_task_due_today, hd, hnow2, hp, hp2]
        exact checkStartDate_stripOffsets env _ task
      | some pr =>
        obtain ⟨d1, o1⟩ := pr
        have hp2 : (stripOffsets env).parse ds = some (d1, none) := by
          simp [stripOffsets, hp]
        have hsingle2 : fromLocalSingle (stripOffsets env) d1 = fromLocalSingle env d1 := rfl
        simp only [is_task_due_today, hd, hnow2, hp, hp2, hsingle2]
        rw [checkStartDate_stripOffsets env _ task]
  · simp [format_time, stripOffsets, hparse, fromLocalSingle]
  · have hstart : checkStartDate env env.now.date { emptyTask with due_date := some s } =
        false := by
      simp [checkStartDate, emptyTask]
    simp only [is_task_due_today, hparse, hstart]
    cases hsing : env.singleLocal d with
    | true =>
      cases hcmp : d.date == env.now.date <;>
        simp [fromLocalSingle, hsing, hcmp, hstart]
    | false =>
      cases hcmp : d.date == env.now.date <;>
        simp [fromLocalSingle, hsing, hcmp, hstart]
  · intro hsing
    simp [format_time, hparse, fromLocalSingle, hsing]

/-- Witness for the amended C5 at the concrete ambiguous environment:
the offset-bearing string is still treated as wall-clock time, the
due-today check uses the parsed date, and the formatter falls back to
the current time. -/
theorem naive_local_interpretation_witness :
    envAmbiguous.parse "2024-07-07T09:30:00+00:00" =
      some ({ date := { year := 2024, month := 7, day := 7 }, hour := 9, minute := 30 },
            some 0) ∧
    (is_task_due_today (stripOffsets envAmbiguous) taskT1 =
        is_task_due_today envAmbiguous taskT1 ∧
     format_time (stripOffsets envAmbiguous) "2024-07-07T09:30:00+00:00" =
        format_time envAmbiguous "2024-07-07T09:30:00+00:00" ∧
     is_task_due_today envAmbiguous
        { emptyTask with due_date := some "2024-07-07T09:30:00+00:00" } =
       (({ date := { year := 2024, month := 7, day := 7 }, hour := 9,
           minute := 30 } : NaiveDateTime).date == envAmbiguous.now.date) ∧
     (envAmbiguous.singleLocal
        { date := { year := 2024, month := 7, day := 7 }, hour := 9, minute := 30 } = false →
      format_time envAmbiguous "2024-07-07T09:30:00+00:00" =
        renderRelative envAmbiguous.now envAmbiguous.now)) :=
  ⟨rfl, naive_local_interpretation envAmbiguous taskT1 "2024-07-07T09:30:00+00:00"
    { date := { year := 2024, month := 7, day := 7 }, hour := 9, minute := 30 }
    (some 0) rfl⟩

/-- C6: a string that fails to parse contributes nothing and raises
nothing — the formatter renders the literal "Invalid time", and the
due-today check behaves exactly as if the unparseable date were absent
(in particular a task whose only date is unparseable is not due today).
Both functions are total, so no error is raised or propagated. -/
theorem unparseable_date_strings_harmless (env : DateEnv) (task : Task) (s : String)
    (hs : env.parse s = none) :
    format_time env s = "Invalid time" ∧
    is_task_due_today env { task with due_date := some s } =
      is_task_due_today env { task with due_date := none } ∧
    is_task_due_today env { task with start_date := some s } =
      is_task_due_today env { task with start_date := none } := by
  refine ⟨?_, ?_, ?_⟩
  · simp [format_time, hs]
  · simp [is_task_due_today, hs, checkStartDate]
  · cases hd : task.due_date with
    | none => simp [is_task_due_today, hd, checkStartDate, hs]
    | some ds =>
      cases hp : env.parse ds with
      | none => simp [is_task_due_today, hd, hp, checkStartDate, hs]
      | some pr =>
        obtain ⟨d1, o1⟩ := pr
        simp [is_task_due_today, hd, hp, checkStartDate, hs]

/-- Witness for C6 at a concrete unparseable string. -/
theorem unparseable_date_strings_harmless_witness :
    denv0.parse "garbage" = none ∧
    (format_time denv0 "garbage" = "Invalid time" ∧
     is_task_due_today denv0 { taskT1 with due_date := some "garbage" } =
       is_task_due_today denv0 { taskT1 with due_date := none } ∧
     is_task_due_today denv0 { taskT1 with start_date := some "garbage" } =
       is_task_due_today denv0 { taskT1 with start_date := none }) :=
  ⟨rfl, unparseable_date_strings_harmless denv0 taskT1 "garbage" rfl⟩

/-! ### Token exchange -/

/-- C7: on a non-2xx token-endpoint response `exchange_code_for_token`
returns an error whose message contains the response body text; on a 2xx
response whose body does not deserialize as a token payload it fails with
the propagated decode error. -/
theorem exchange_error_paths (env : HttpEnv) (st : TickTickClient) (cfg : Config)
    (response : HttpResponse) :
    (isSuccessStatus response.status = false →
      ∃ m, (exchange_code_for_token env st cfg response).result = .error (.httpError m) ∧
        ∃ pre suf, m = pre ++ response.body ++ suf) ∧
    (isSuccessStatus response.status = true →
      env.parseTokenResponse response.body = none →
      (exchange_code_for_token env st cfg response).result =
        .error (.decodeError response.body)) := by
  constructor
  · intro hfail
    refine ⟨"Failed to exchange code for token: " ++ response.body, ?_,
      "Failed to exchange code for token: ", "", ?_⟩
    · simp [exchange_code_for_token, hfail]
    · rw [String.append_assoc, String.append_empty]
  · intro hok hdecode
    simp [exchange_code_for_token, hok, hdecode]

/-- Witness for C7: the rejected mock exchange carries the error body in
its message, and the undecodable 2xx body yields the decode error. -/
theorem exchange_error_paths_witness :
    (isSuccessStatus respRejected.status = false ∧
     isSuccessStatus respBadBody.status = true ∧
     httpEnv0.parseTokenResponse respBadBody.body = none) ∧
    (∃ m, (exchange_code_for_token httpEnv0 client0 config0 respRejected).result =
        .error (.httpError m) ∧ ∃ pre suf, m = pre ++ respRejected.body ++ suf) ∧
    (exchange_code_for_token httpEnv0 client0 config0 respBadBody).result =
      .error (.decodeError respBadBody.body) :=
  ⟨⟨rfl, rfl, rfl⟩,
   (exchange_error_paths httpEnv0 client0 config0 respRejected).1 rfl,
   (exchange_error_paths httpEnv0 client0 config0 respBadBody).2 rfl rfl⟩

/-- C10: when a 2xx token response fails to deserialize,
`exchange_code_for_token` returns the decode error having mutated
nothing: the client state and the config — in particular both
`access_token` fields — are exactly as before the call, so no partial or
invalid token is set or persisted. -/
theorem exchange_decode_failure_state_unchanged (env : HttpEnv) (st : TickTickClient)
    (cfg : Config) (response : HttpResponse)
    (hok : isSuccessStatus response.status = true)
    (hdecode : env.parseTokenResponse response.body = none) :
    (exchange_code_for_token env st cfg response).result =
      .error (.decodeError response.body) ∧
    (exchange_code_for_token env st cfg response).client = st ∧
    (exchange_code_for_token env st cfg response).config = cfg ∧
    (exchange_code_for_token env st cfg response).client.access_token = st.access_token ∧
    (exchange_code_for_token env st cfg response).config.ticktick.access_token =
      cfg.ticktick.access_token := by
  have hout : exchange_code_for_token env st cfg response =
      { result := .error (.decodeError response.body), client := st, config := cfg } := by
    simp [exchange_code_for_token, hok, hdecode]
  rw [hout]
  exact ⟨rfl, rfl, rfl, rfl, rfl⟩

/-- Witness for C10 at the concrete undecodable 2xx response: the stored
token `oldtok` and the client's absent token are untouched. -/
theorem exchange_decode_failure_state_unchanged_witness :
    (isSuccessStatus respBadBody.status = true ∧
     httpEnv0.parseTokenResponse respBadBody.body = none) ∧
    ((exchange_code_for_token httpEnv0 client0 config0 respBadBody).result =
        .error (.decodeError respBadBody.body) ∧
     (exchange_code_for_token httpEnv0 client0 config0 respBadBody).client = client0 ∧
     (exchange_code_for_token httpEnv0 client0 config0 respBadBody).config = config0 ∧
     (exchange_code_for_token httpEnv0 client0 config0 respBadBody).client.access_token =
        client0.access_token ∧
     (exchange_code_for_token httpEnv0 client0 config0 respBadBody).config.ticktick.access_token =
        config0.ticktick.access_token) :=
  ⟨⟨rfl, rfl⟩,
   exchange_decode_failure_state_unchanged httpEnv0 client0 config0 respBadBody rfl rfl⟩

/-! ### Authorization URL -/

/-- The form-urlencoded serialisation of a byte never produces the pair
separator `&` (38) or the key separator `=` (61). -/
theorem encodeByte_ne_sep (b x : Nat) (hx : x ∈ encodeByte b) : x ≠ 38 ∧ x ≠ 61 := by
  unfold encodeByte at hx
  cases h1 : isFormUnreservedByte b with
  | true =>
    simp [h1] at hx
    subst hx
    simp [isFormUnreservedByte] at h1
    omega
  | false =>
    cases h2 : b == 32 with
    | true =>
      simp [h1, h2] at hx
      omega
    | false =>
      simp [h1, h2, hexDigitByte] at hx
      rcases hx with h | h | h
      · omega
      · split at h <;> omega
      · split at h <;> omega

/-- No byte of a form-urlencoded value is `&` or `=`. -/
theorem formEncode_ne_sep (s : ByteStr) (x : Nat) (hx : x ∈ formEncode s) :
    x ≠ 38 ∧ x ≠ 61 := by
  unfold formEncode at hx
  rw [List.mem_flatMap] at hx
  obtain ⟨b, _, hb⟩ := hx
  exact encodeByte_ne_sep b x hb

/-- Decoding inverts the uppercase hex digit encoding. -/
theorem hexVal_hexDigitByte : ∀ n < 16, hexVal (hexDigitByte n) = some n := by decide

/-- Percent-decoding undoes the serialisation of one byte, whatever
follows it. -/
theorem formDecode_encodeByte (b : Nat) (hb : b < 256) (rest : ByteStr) :
    formDecode (encodeByte b ++ rest) = b :: formDecode rest := by
  unfold encodeByte
  cases h1 : isFormUnreservedByte b with
  | true =>
    have hb37 : b ≠ 37 := by simp [isFormUnreservedByte] at h1; omega
    have hb43 : b ≠ 43 := by simp [isFormUnreservedByte] at h1; omega
    rw [if_pos rfl, List.cons_append, List.nil_append, formDecode.eq_def]
    dsimp only
    rw [if_neg hb37, if_neg hb43]
  | false =>
    cases h2 : b == 32 with
    | true =>
      have hbeq : b = 32 := by simpa using h2
      subst hbeq
      rw [if_neg (by simp [h1]), if_pos rfl, List.cons_append, List.nil_append,
        formDecode.eq_def]
      norm_num
    | false =>
      have e1 : hexVal (hexDigitByte (b / 16)) = some (b / 16) :=
        hexVal_hexDigitByte (b / 16) (by omega)
      have e2 : hexVal (hexDigitByte (b % 16)) = some (b % 16) :=
        hexVal_hexDigitByte (b % 16) (by omega)
      rw [if_neg (by simp [h1]), if_neg (by simp [h2]), List.cons_append,
        formDecode.eq_def]
      norm_num [e1, e2]
      omega

/-- Percent-decoding is a left inverse of the form-urlencoded
serialisation on byte strings. -/
theorem formDecode_formEncode (s : ByteStr) (hs : ValidBytes s) :
    formDecode (formEncode s) = s := by
  induction s with
  | nil => rfl
  | cons b t ih =>
    have hb : b < 256 := hs b (List.mem_cons_self b t)
    have ht : ValidBytes t := fun x hx => hs x (List.mem_cons_of_mem b hx)
    show formDecode ((b :: t).flatMap encodeByte) = b :: t
    rw [show (b :: t).flatMap encodeByte = encodeByte b ++ t.flatMap encodeByte by
      simp [List.flatMap_cons]]
    rw [formDecode_encodeByte b hb]
    rw [show (t.flatMap encodeByte) = formEncode t from rfl, ih ht]

/-- A byte string without the separator is a single split segment. -/
theorem splitOnByte_of_not_mem (sep : Nat) (xs : ByteStr) (h : sep ∉ xs) :
    splitOnByte sep xs = [xs] := by
  induction xs with
  | nil => rfl
  | cons b t ih =>
    have hb : b ≠ sep := fun he => h (he ▸ List.mem_cons_self b t)
    have ht : sep ∉ t := fun hm => h (List.mem_cons_of_mem b hm)
    rw [splitOnByte.eq_def]
    dsimp only
    rw [if_neg hb, ih ht]

/-- Splitting peels off a separator-free prefix segment. -/
theorem splitOnByte_append (sep : Nat) (xs ys : ByteStr) (h : sep ∉ xs) :
    splitOnByte sep (xs ++ sep :: ys) = xs :: splitOnByte sep ys := by
  induction xs with
  | nil =>
    rw [List.nil_append, splitOnByte.eq_def]
    dsimp only
    rw [if_pos rfl]
  | cons b t ih =>
    have hb : b ≠ sep := fun he => h (he ▸ List.mem_cons_self b t)
    have ht : sep ∉ t := fun hm => h (List.mem_cons_of_mem b hm)
    rw [List.cons_append, splitOnByte.eq_def]
    dsimp only
    rw [if_neg hb, ih ht]

/-- Taking up to the first `=` of a `key=value` segment yields the key. -/
theorem takeWhile_key (key val : ByteStr) (hk : ∀ x ∈ key, x ≠ 61) :
    (key ++ 61 :: val).takeWhile (fun b => b != 61) = key := by
  induction key with
  | nil => simp
  | cons b t ih =>
    have hb : b ≠ 61 := hk b (List.mem_cons_self b t)
    have ht : ∀ x ∈ t, x ≠ 61 := fun x hx => hk x (List.mem_cons_of_mem b hx)
    simp only [List.cons_append, List.takeWhile_cons]
    simp only [bne_iff_ne, ne_eq, hb, not_false_eq_true, if_true]
    rw [ih ht]

/-- Dropping through the first `=` of a `key=value` segment yields the
value. -/
theorem dropWhile_value (key val : ByteStr) (hk : ∀ x ∈ key, x ≠ 61) :
    ((key ++ 61 :: val).dropWhile (fun b => b != 61)).drop 1 = val := by
  induction key with
  | nil => simp
  | cons b t ih =>
    have hb : b ≠ 61 := hk b (List.mem_cons_self b t)
    have ht : ∀ x ∈ t, x ≠ 61 := fun x hx => hk x (List.mem_cons_of_mem b hx)
    simp only [List.cons_append, List.dropWhile_cons]
    simp only [bne_iff_ne, ne_eq, hb, not_false_eq_true, if_true]
    exact ih ht

/-- Decoding one serialised `key=value` component recovers the key and
the value. -/
theorem decodePair_queryComponent (key : String) (v : ByteStr)
    (hk : ∀ x ∈ strBytes key, x ≠ 61)
    (hkdec : formDecode (strBytes key) = strBytes key) (hv : ValidBytes v) :
    decodePair (queryComponent key v) = (strBytes key, v) := by
  unfold decodePair queryComponent
  rw [takeWhile_key _ _ hk, dropWhile_value _ _ hk, formDecode_formEncode v hv, hkdec]

/-- A serialised component contains no pair separator `&`. -/
theorem not_mem_queryComponent (key : String) (v : ByteStr)
    (hk : (38 : Nat) ∉ strBytes key) : (38 : Nat) ∉ queryComponent key v := by
  unfold queryComponent
  intro hmem
  rw [List.mem_append] at hmem
  rcases hmem with h | h
  · exact hk h
  · rw [List.mem_cons] at h
    rcases h with h | h
    · omega
    · exact (formEncode_ne_sep v 38 h).1 rfl

/-- C8: for every state (and configured client id and redirect URI),
`get_authorization_url` deterministically produces the provider's
authorize-endpoint URL whose query consists of exactly the five pairs
`client_id`, `scope=tasks:read`, `state`, `redirect_uri` and
`response_type=code`, each value form-urlencoded so that percent-decoding
the query recovers the original values exactly. -/
theorem authorization_url_query_pairs (client_id redirect_uri state : ByteStr)
    (h1 : ValidBytes client_id) (h2 : ValidBytes redirect_uri)
    (h3 : ValidBytes state) :
    get_authorization_url client_id redirect_uri state =
      strBytes "https://ticktick.com/oauth/authorize" ++ 63 ::
        authQuery client_id redirect_uri state ∧
    decodeQueryPairs (authQuery client_id redirect_uri state) =
      [(strBytes "client_id", client_id),
       (strBytes "scope", strBytes "tasks:read"),
       (strBytes "state", state),
       (strBytes "redirect_uri", redirect_uri),
       (strBytes "response_type", strBytes "code")] := by
  constructor
  · rfl
  · unfold decodeQueryPairs authQuery
    rw [splitOnByte_append 38 _ _ (not_mem_queryComponent _ _ (by decide))]
    rw [splitOnByte_append 38 _ _ (not_mem_queryComponent _ _ (by decide))]
    rw [splitOnByte_append 38 _ _ (not_mem_queryComponent _ _ (by decide))]
    rw [splitOnByte_append 38 _ _ (not_mem_queryComponent _ _ (by decide))]
    rw [splitOnByte_of_not_mem 38 _ (not_mem_queryComponent _ _ (by decide))]
    rw [List.map_cons, List.map_cons, List.map_cons, List.map_cons, List.map_cons,
      List.map_nil]
    rw [decodePair_queryComponent _ _ (by decide) (by decide) h1]
    rw [decodePair_queryComponent _ _ (by decide) (by decide) (by decide)]
    rw [decodePair_queryComponent _ _ (by decide) (by decide) h3]
    rw [decodePair_queryComponent _ _ (by decide) (by decide) h2]
    rw [decodePair_queryComponent _ _ (by decide) (by decide) (by decide)]

/-- Witness for C8 at a concrete client id containing a space, the
default redirect URI and the constant state the source passes. -/
theorem authorization_url_query_pairs_witness :
    (ValidBytes (strBytes "my id") ∧
     ValidBytes (strBytes "http://localhost:8080/callback") ∧
     ValidBytes (strBytes "state123")) ∧
    decodeQueryPairs
        (authQuery (strBytes "my id") (strBytes "http://localhost:8080/callback")
          (strBytes "state123")) =
      [(strBytes "client_id", strBytes "my id"),
       (strBytes "scope", strBytes "tasks:read"),
       (strBytes "state", strBytes "state123"),
       (strBytes "redirect_uri", strBytes "http://localhost:8080/callback"),
       (strBytes "response_type", strBytes "code")] :=
  ⟨⟨by decide, by decide, by decide⟩,
   (authorization_url_query_pairs (strBytes "my id")
     (strBytes "http://localhost:8080/callback") (strBytes "state123")
     (by decide) (by decide) (by decide)).2⟩

end Tick
